import Mathlib

/-!
Shallow embedding of the blueplug event-normalization and decoding pipeline
(`src/main.rs`): the identity cache, the two payload decoders, the event
normalizer (`bt_stream`) and the reading projector (`device_reading_stream`).

Rust `HashMap`s are embedded as association lists (`List (key × value)`);
entry lookup is `mapGet` and overwriting insertion is `mapInsert`.
`f64` measurement values are embedded as exact rationals: every arithmetic
operation the pipeline performs on measurement values is a division of an
integer raw value by a power of ten, and for all payloads considered in the
repository's own regression fixture these quotients are exactly representable,
so the rational and the floating-point pipelines agree on them.
-/

namespace Blueplug

/-- A 128-bit UUID, embedded as its numeric value (as `Uuid::from_u128`). -/
abbrev Uuid := Nat

/-- `DeviceId` from `src/main.rs`: stable id plus human-readable name. -/
structure DeviceId where
  peripheral_id : Uuid
  device_name : String
deriving Repr, DecidableEq

/-- `Measurement` from `src/main.rs`: tagged union of physical readings. -/
inductive Measurement where
  | humidity (v : ℚ)
  | temperature (v : ℚ)
  | battery (v : ℚ)
  | voltage (v : ℚ)
deriving Repr, DecidableEq

/-- `HashMap::get`: first (and, with unique keys, only) value bound to `k`. -/
def mapGet {α β : Type} [DecidableEq α] (k : α) : List (α × β) → Option β
  | [] => none
  | (k', v) :: rest => if k = k' then some v else mapGet k rest

/-- `HashMap::insert`: bind `k` to `v`, overwriting any previous binding. -/
def mapInsert {α β : Type} [DecidableEq α] (k : α) (v : β) (m : List (α × β)) :
    List (α × β) :=
  (k, v) :: m.filter (fun e => e.1 ≠ k)

/-- The keys of a map are pairwise distinct (always true of a Rust `HashMap`). -/
def NodupKeys {α β : Type} (m : List (α × β)) : Prop := (m.map Prod.fst).Nodup

/-- Big-endian combination of two bytes. -/
def byte2BE (hi lo : Nat) : Nat := hi * 256 + lo

/-- Modelled from the spec: the parse step of the fixed-layout single-vendor
decoder (the external `ruuvi_sensor_protocol` crate, which is not under
`src/`). Successful parse exposes up to three optional raw readings: humidity
in parts per million, temperature in millidegrees Celsius, and battery
potential in millivolts. -/
structure SensorValues where
  humidity_ppm : Option Nat
  temperature_millicelsius : Option Int
  battery_potential_millivolts : Option Nat
deriving Repr, DecidableEq

/-- Modelled from the spec: `SensorValues::from_manufacturer_specific_data`
from the external `ruuvi_sensor_protocol` crate (not under `src/`). The spec
describes it as a format-specific fixed-offset decode per vendor id that fails
on an unrecognized vendor id or truncated bytes. The model implements the
vendor's published 24-byte data-format-5 layout under the vendor id `0x0499`:
byte 0 is the format tag `5`; bytes 1–2 are big-endian signed temperature in
units of 5 millidegrees (invalid at `0x8000`); bytes 3–4 are big-endian
humidity in units of 25 ppm (invalid at `0xFFFF`); the upper 11 bits of
bytes 13–14 are battery potential above 1600 mV (invalid at `2047`). -/
def SensorValues.from_manufacturer_specific_data (id : Nat) (data : List Nat) :
    Option SensorValues :=
  if id = 0x0499 ∧ data.length = 24 ∧ data.getD 0 0 = 5 then
    let tempRaw := byte2BE (data.getD 1 0) (data.getD 2 0)
    let humRaw := byte2BE (data.getD 3 0) (data.getD 4 0)
    let voltRaw := byte2BE (data.getD 13 0) (data.getD 14 0) / 32
    some
      { humidity_ppm := if humRaw = 65535 then none else some (humRaw * 25)
        temperature_millicelsius :=
          if tempRaw = 32768 then none
          else some ((if tempRaw < 32768 then (tempRaw : Int)
                      else (tempRaw : Int) - 65536) * 5)
        battery_potential_millivolts :=
          if voltRaw = 2047 then none else some (voltRaw + 1600) }
  else none

/-- The per-entry closure inside `measurements_from_manufacturer_data`
(`src/main.rs` lines 176–191): attempt the fixed-layout parse for one vendor
id; on success push the three optional readings (humidity, then temperature,
then battery potential as `Voltage`) with their fixed unit conversions; on
failure contribute nothing. -/
def entryMeasurements (e : Nat × List Nat) : List Measurement :=
  match SensorValues.from_manufacturer_specific_data e.1 e.2 with
  | none => []
  | some parsed =>
    (match parsed.humidity_ppm with
      | some humidity => [Measurement.humidity ((humidity : ℚ) / 10000)]
      | none => []) ++
    (match parsed.temperature_millicelsius with
      | some temp => [Measurement.temperature ((temp : ℚ) / 1000)]
      | none => []) ++
    (match parsed.battery_potential_millivolts with
      | some batt => [Measurement.voltage ((batt : ℚ) / 1000)]
      | none => [])

/-- `measurements_from_manufacturer_data` from `src/main.rs`: flat-map the
per-vendor-id decode over the manufacturer-data map's entries. -/
def measurements_from_manufacturer_data
    (manufacturer_data : List (Nat × List Nat)) : List Measurement :=
  manufacturer_data.flatMap entryMeasurements

/-- Modelled from the spec: one typed element of the structured multi-element
envelope (the external `btsensor` crate's BTHome-v2 element, not under
`src/`). The spec describes each element as exposing a semantic name and a
value accessor that may yield a float or an integer depending on the
element's declared type. -/
structure Element where
  name : String
  value_float : Option ℚ
  value_int : Option Int
deriving Repr, DecidableEq

/-- A decoded BTHome-v2 envelope: its ordered sequence of elements. -/
structure BtHomeV2 where
  elements : List Element
deriving Repr, DecidableEq

/-- Signed interpretation of a 16-bit little-endian raw value. -/
def sint16 (raw : Nat) : Int :=
  if raw < 32768 then (raw : Int) else (raw : Int) - 65536

/-- Modelled from the spec: the element stream of the structured envelope
(the external `btsensor` crate's BTHome-v2 object parser, not under `src/`).
The published format is a sequence of (object id, fixed-width value) pairs;
the objects carried by the repository's regression fixture are `0x00` packet
id (one byte, integer-valued), `0x01` battery percentage (one byte,
integer-valued), `0x02` temperature (signed 16-bit little-endian, scaled by
0.01 °C, float-valued) and `0x03` humidity (unsigned 16-bit little-endian,
scaled by 0.01 %, float-valued). An unknown object id is a malformed
envelope: the whole decode fails, which the spec maps to "no measurements". -/
def bthomeElements : List Nat → Option (List Element)
  | [] => some []
  | 0x00 :: v :: rest =>
      (bthomeElements rest).map (Element.mk "packet id" none (some v) :: ·)
  | 0x01 :: v :: rest =>
      (bthomeElements rest).map (Element.mk "battery" none (some v) :: ·)
  | 0x02 :: lo :: hi :: rest =>
      (bthomeElements rest).map
        (Element.mk "temperature" (some ((sint16 (byte2BE hi lo) : ℚ) / 100)) none :: ·)
  | 0x03 :: lo :: hi :: rest =>
      (bthomeElements rest).map
        (Element.mk "humidity" (some ((byte2BE hi lo : ℚ) / 100)) none :: ·)
  | _ => none

/-- Modelled from the spec: decoding one BTHome-v2 payload (external
`btsensor` crate, not under `src/`). The leading device-information byte must
declare envelope version 2 (upper three bits) and no encryption (lowest bit);
an unknown envelope version is a decode failure, which the spec maps to "no
measurements". -/
def bthomeV2Decode : List Nat → Option BtHomeV2
  | [] => none
  | info :: rest =>
      if info % 2 = 0 ∧ info / 32 = 2 then (bthomeElements rest).map BtHomeV2.mk
      else none

/-- `btsensor::Reading`: the decoded forms the repository dispatches on. The
`Atc` and `BtHomeV1` variants are carried opaquely (the repository ignores
their contents). -/
inductive Reading where
  | BtHomeV2 (v2 : BtHomeV2)
  | Atc (raw : List Nat)
  | BtHomeV1 (raw : List Nat)
deriving Repr, DecidableEq

/-- The 128-bit expansion `0000xxxx-0000-1000-8000-00805f9b34fb` of a 16-bit
Bluetooth service UUID. -/
def uuid16 (n : Nat) : Uuid := n * 2 ^ 96 + 0x00001000800000805f9b34fb

/-- The BTHome-v2 service UUID `0xFCD2`. -/
def bthomeV2Uuid : Uuid := uuid16 0xFCD2

/-- The BTHome-v1 service UUID `0x181C`. -/
def bthomeV1Uuid : Uuid := uuid16 0x181C

/-- The atc1441/pvvx custom service UUID `0x181A`. -/
def atcUuid : Uuid := uuid16 0x181A

/-- Modelled from the spec: `btsensor::Reading::decode` (external crate, not
under `src/`): select the envelope format by looking up the documented
service UUID in the service-data map, and decode the bytes bound to it.
The `Atc` and `BtHomeV1` branches wrap their bytes opaquely, since the
repository discards those variants without inspecting them. -/
def Reading.decode (service_data : List (Uuid × List Nat)) : Option Reading :=
  match mapGet bthomeV2Uuid service_data with
  | some data => (bthomeV2Decode data).map Reading.BtHomeV2
  | none =>
    match mapGet bthomeV1Uuid service_data with
    | some data => some (Reading.BtHomeV1 data)
    | none =>
      match mapGet atcUuid service_data with
      | some data => some (Reading.Atc data)
      | none => none

/-- The per-element match inside `measurements_from_service_data`
(`src/main.rs` lines 203–212): dispatch on the element's semantic name. -/
def measurementOfElement (e : Element) : Option Measurement :=
  match e.name with
  | "humidity" => some (Measurement.humidity (e.value_float.getD 0))
  | "temperature" => some (Measurement.temperature (e.value_float.getD 0))
  | "battery" => some (Measurement.battery ((e.value_int.getD 0 : Int) : ℚ))
  | _ => none

/-- `measurements_from_service_data` from `src/main.rs`: decode the
service-data map; on a BTHome-v2 envelope, map each element through the
name-indexed match; every other outcome yields no measurements. -/
def measurements_from_service_data
    (service_data : List (Uuid × List Nat)) : List Measurement :=
  match Reading.decode service_data with
  | some (Reading.BtHomeV2 v2) => v2.elements.filterMap measurementOfElement
  | some (Reading.Atc _) => []
  | some (Reading.BtHomeV1 _) => []
  | none => []

/-- Value of an ASCII hexadecimal digit. -/
def hexVal (c : Char) : Option Nat :=
  if '0' ≤ c ∧ c ≤ '9' then some (c.toNat - 48)
  else if 'a' ≤ c ∧ c ≤ 'f' then some (c.toNat - 87)
  else if 'A' ≤ c ∧ c ≤ 'F' then some (c.toNat - 55)
  else none

/-- Fold a big-endian hexadecimal digit string onto an accumulator, failing
on the first non-hexadecimal character. -/
def hexFold (acc : Nat) : List Char → Option Nat
  | [] => some acc
  | c :: cs =>
    match hexVal c with
    | some v => hexFold (acc * 16 + v) cs
    | none => none

/-- Modelled from the spec: `Uuid::try_parse_ascii` from the external `uuid`
crate (not under `src/`), for the two textual shapes relevant here: the
36-character hyphenated form `8-4-4-4-12` and the 32-character simple form.
Any other string — in particular a colon-separated hardware address, the
shape a transient handle takes on platforms that expose MAC addresses —
fails to parse. -/
def Uuid.try_parse_ascii (s : String) : Option Uuid :=
  let cs := s.toList
  if cs.length = 36 then
    if cs.getD 8 ' ' = '-' ∧ cs.getD 13 ' ' = '-' ∧
       cs.getD 18 ' ' = '-' ∧ cs.getD 23 ' ' = '-' then
      hexFold 0
        ((cs.enum.filter fun p =>
            p.1 ≠ 8 ∧ p.1 ≠ 13 ∧ p.1 ≠ 18 ∧ p.1 ≠ 23).map Prod.snd)
    else none
  else if cs.length = 32 then hexFold 0 cs
  else none

/-- The raw `btleplug` central events `bt_stream` matches on. A discovery
event carries the result of the subsequent `peripheral.properties()` call:
`none` when no properties are available, `some none` when the properties
carry no `local_name`. The advertisement events carry their payload maps;
every other central event is `other`. -/
inductive CentralEvent where
  | deviceDiscovered (id : String) (props : Option (Option String))
  | serviceDataAdvertisement (id : String) (service_data : List (Uuid × List Nat))
  | manufacturerDataAdvertisement (id : String)
      (manufacturer_data : List (Nat × List Nat))
  | other
deriving Repr, DecidableEq

/-- One item consumed by the `bt_stream` generator: either a central event,
or the failure of one of the fallible operations awaited inside the loop
(adapter access, peripheral lookup, property fetch) — the errors the `?`
operator propagates. -/
inductive RawItem where
  | event (e : CentralEvent)
  | ioError (msg : String)
deriving Repr, DecidableEq

/-- `DeviceEvent` from `src/main.rs`: an advertisement re-attributed to a
resolved `DeviceId`. -/
inductive DeviceEvent where
  | serviceDataAdvertisement (device_id : DeviceId)
      (service_data : List (Uuid × List Nat))
  | manufacturerDataAdvertisement (device_id : DeviceId)
      (manufacturer_data : List (Nat × List Nat))
deriving Repr, DecidableEq

/-- One iteration of the event loop in `bt_stream` (`src/main.rs` lines
108–140): the updated `device_names` cache and the events yielded. A named
discovery whose handle parses as a UUID overwrites the cache entry
(`HashMap::insert`); a discovery without a name, or whose handle fails to
parse, only logs; an advertisement is emitted only when the cache resolves
its handle. -/
def btStep (device_names : List (String × DeviceId)) :
    CentralEvent → List (String × DeviceId) × List DeviceEvent
  | CentralEvent.deviceDiscovered id props =>
    match props with
    | some (some device_name) =>
      match Uuid.try_parse_ascii id with
      | some peripheral_id =>
          (mapInsert id ⟨peripheral_id, device_name⟩ device_names, [])
      | none => (device_names, [])
    | _ => (device_names, [])
  | CentralEvent.serviceDataAdvertisement id sd =>
    match mapGet id device_names with
    | some device_id =>
        (device_names, [DeviceEvent.serviceDataAdvertisement device_id sd])
    | none => (device_names, [])
  | CentralEvent.manufacturerDataAdvertisement id md =>
    match mapGet id device_names with
    | some device_id =>
        (device_names, [DeviceEvent.manufacturerDataAdvertisement device_id md])
    | none => (device_names, [])
  | CentralEvent.other => (device_names, [])

/-- The output sequence of `bt_stream` over a list of raw items, starting
from the given cache: a `try_stream!` yields `Ok` items until the first
failing awaited operation, whose error it yields terminally — nothing after
it is processed. -/
def bt_stream (device_names : List (String × DeviceId)) :
    List RawItem → List (Except String DeviceEvent)
  | [] => []
  | RawItem.ioError e :: _ => [Except.error e]
  | RawItem.event ev :: rest =>
    (btStep device_names ev).2.map Except.ok ++
      bt_stream (btStep device_names ev).1 rest

/-- The `device_names` cache after `bt_stream` has consumed the given raw
items (frozen at the point the first error terminates the generator). -/
def btRunState (device_names : List (String × DeviceId)) :
    List RawItem → List (String × DeviceId)
  | [] => device_names
  | RawItem.ioError _ :: _ => device_names
  | RawItem.event ev :: rest => btRunState (btStep device_names ev).1 rest

/-- `DeviceReading` from `src/main.rs`: identity plus one measurement. -/
structure DeviceReading where
  device_id : DeviceId
  measurement : Measurement
deriving Repr, DecidableEq

/-- `device_reading_stream` from `src/main.rs`: project each resolved
advertisement through the matching decoder, pairing every measurement with
the event's `DeviceId`; an error item is logged and contributes no readings
(the loop itself continues to the next item). -/
def device_reading_stream
    (events : List (Except String DeviceEvent)) : List DeviceReading :=
  events.flatMap fun item =>
    match item with
    | Except.ok (DeviceEvent.serviceDataAdvertisement device_id sd) =>
        (measurements_from_service_data sd).map (fun m => ⟨device_id, m⟩)
    | Except.ok (DeviceEvent.manufacturerDataAdvertisement device_id md) =>
        (measurements_from_manufacturer_data md).map (fun m => ⟨device_id, m⟩)
    | Except.error _ => []

/-- No item of the list is a failed awaited operation. -/
def errorFree : List RawItem → Bool
  | [] => true
  | RawItem.ioError _ :: _ => false
  | RawItem.event _ :: rest => errorFree rest

/-- The raw item is a discovery event that creates (or overwrites) the
identity-cache entry for handle `hid`: a discovery of `hid` itself, carrying
a name, whose handle parses as a UUID. -/
def createsEntryFor (hid : String) : RawItem → Bool
  | RawItem.event (CentralEvent.deviceDiscovered id (some (some _))) =>
      id == hid && (Uuid.try_parse_ascii id).isSome
  | _ => false

/-- A 24-byte vendor data-format-5 payload whose raw readings are humidity
`390000` ppm (`15600 × 25`), temperature `19160` m°C (`3832 × 5`) and battery
potential `3300` mV (`1700 + 1600`). -/
def ruuviFixture : List Nat :=
  [5, 14, 248, 60, 240, 0, 0, 0, 0, 0, 0, 0, 0, 212, 128, 0, 0, 0, 0, 0, 0,
   0, 0, 0]

/-- The regression-fixture envelope bytes from the repository's own test
(`src/main.rs` line 290). -/
def bthomeFixture : List Nat := [64, 0, 126, 1, 100, 2, 124, 7, 3, 60, 15]

/-- A transient handle in valid hyphenated-UUID form. -/
def sampleHandle : String := "00000000-0000-0000-0000-000000000001"

/-- A transient handle in colon-separated hardware-address form, which does
not parse as a UUID. -/
def macHandle : String := "AA:BB:CC:DD:EE:FF"

/-! ## Helper lemmas -/

theorem mapGet_mapInsert_self {α β : Type} [DecidableEq α] (k : α) (v : β)
    (m : List (α × β)) : mapGet k (mapInsert k v m) = some v := by
  simp [mapGet, mapInsert]

theorem mapGet_filter_ne {α β : Type} [DecidableEq α] (k k' : α)
    (m : List (α × β)) (h : k ≠ k') :
    mapGet k (m.filter fun e => e.1 ≠ k') = mapGet k m := by
  induction m with
  | nil => rfl
  | cons e rest ih =>
    rcases eq_or_ne e.1 k' with he | he
    · have hk : k ≠ e.1 := by rw [he]; exact h
      rw [List.filter_cons_of_neg (by simp [he]), ih]
      show mapGet k rest = if k = e.1 then some e.2 else mapGet k rest
      rw [if_neg hk]
    · rw [List.filter_cons_of_pos (by simp [he])]
      show (if k = e.1 then some e.2 else _) = if k = e.1 then some e.2 else _
      by_cases hk : k = e.1
      · rw [if_pos hk, if_pos hk]
      · rw [if_neg hk, if_neg hk, ih]

theorem mapGet_mapInsert_ne {α β : Type} [DecidableEq α] (k k' : α) (v : β)
    (m : List (α × β)) (h : k ≠ k') :
    mapGet k (mapInsert k' v m) = mapGet k m := by
  show (if k = k' then some v else mapGet k (m.filter fun e => e.1 ≠ k')) =
    mapGet k m
  rw [if_neg h, mapGet_filter_ne k k' m h]

theorem mapGet_perm {α β : Type} [DecidableEq α] (k : α) {l₁ l₂ : List (α × β)}
    (p : l₁.Perm l₂) (nd : NodupKeys l₁) : mapGet k l₁ = mapGet k l₂ := by
  induction p with
  | nil => rfl
  | cons x p ih =>
    have nd' := (List.nodup_cons.mp nd).2
    by_cases hk : k = x.1 <;> simp [mapGet, hk, ih nd']
  | swap x y l =>
    have hyx : y.1 ∉ (x :: l).map Prod.fst := (List.nodup_cons.mp nd).1
    have hxy : y.1 ≠ x.1 := fun he => hyx (by simp [he])
    have L : mapGet k (y :: x :: l) =
        if k = y.1 then some y.2 else if k = x.1 then some x.2 else mapGet k l :=
      rfl
    have R : mapGet k (x :: y :: l) =
        if k = x.1 then some x.2 else if k = y.1 then some y.2 else mapGet k l :=
      rfl
    rw [L, R]
    by_cases hky : k = y.1
    · by_cases hkx : k = x.1
      · exact absurd (hky.symm.trans hkx) hxy
      · rw [if_pos hky, if_neg hkx, if_pos hky]
    · by_cases hkx : k = x.1
      · rw [if_neg hky, if_pos hkx, if_pos hkx]
      · rw [if_neg hky, if_neg hkx, if_neg hkx, if_neg hky]
  | trans p₁ p₂ ih₁ ih₂ =>
    have ndmid := (p₁.map Prod.fst).nodup nd
    rw [ih₁ nd, ih₂ ndmid]

theorem entryMeasurements_ne_vendor (e : Nat × List Nat) (h : e.1 ≠ 0x0499) :
    entryMeasurements e = [] := by
  simp [entryMeasurements, SensorValues.from_manufacturer_specific_data, h]

theorem measurements_flatMap_cons (e : Nat × List Nat)
    (rest : List (Nat × List Nat)) :
    measurements_from_manufacturer_data (e :: rest) =
      entryMeasurements e ++ measurements_from_manufacturer_data rest := by
  simp [measurements_from_manufacturer_data]

theorem measurements_nil_of_no_vendor (l : List (Nat × List Nat))
    (h : ∀ e ∈ l, e.1 ≠ 0x0499) : measurements_from_manufacturer_data l = [] := by
  induction l with
  | nil => rfl
  | cons e rest ih =>
    have h1 := entryMeasurements_ne_vendor e (h e (List.mem_cons_self _ _))
    have h2 := ih fun e' he' => h e' (List.mem_cons_of_mem _ he')
    rw [measurements_flatMap_cons, h1, h2, List.append_nil]

theorem measurements_eq_vendor_lookup (l : List (Nat × List Nat))
    (nd : NodupKeys l) :
    measurements_from_manufacturer_data l =
      (match mapGet 0x0499 l with
       | some d => entryMeasurements (0x0499, d)
       | none => []) := by
  induction l with
  | nil => rfl
  | cons e rest ih =>
    obtain ⟨k0, d0⟩ := e
    have hk : k0 ∉ rest.map Prod.fst := (List.nodup_cons.mp nd).1
    have ndr : NodupKeys rest := (List.nodup_cons.mp nd).2
    rcases eq_or_ne k0 0x0499 with he | he
    · subst he
      have hrest : measurements_from_manufacturer_data rest = [] := by
        apply measurements_nil_of_no_vendor
        intro e' he' hc
        have hm : e'.1 ∈ rest.map Prod.fst := List.mem_map_of_mem Prod.fst he'
        rw [hc] at hm
        exact hk hm
      rw [measurements_flatMap_cons, hrest, List.append_nil]
      rfl
    · have hgets : mapGet 0x0499 ((k0, d0) :: rest) = mapGet 0x0499 rest := by
        show (if (0x0499 : Nat) = k0 then some d0 else mapGet 0x0499 rest) =
          mapGet 0x0499 rest
        rw [if_neg (fun hc => he hc.symm)]
      rw [measurements_flatMap_cons,
        entryMeasurements_ne_vendor (k0, d0) he, List.nil_append, hgets]
      exact ih ndr

theorem bt_stream_append_of_errorFree (names : List (String × DeviceId))
    (items more : List RawItem) (h : errorFree items = true) :
    bt_stream names (items ++ more) =
      bt_stream names items ++ bt_stream (btRunState names items) more := by
  induction items generalizing names with
  | nil => simp [bt_stream, btRunState]
  | cons it rest ih =>
    cases it with
    | ioError e => simp [errorFree] at h
    | event ev =>
      have h' : errorFree rest = true := by simpa [errorFree] using h
      simp [bt_stream, btRunState, ih _ h']

theorem bt_stream_append_of_error (names : List (String × DeviceId))
    (items more : List RawItem) (h : errorFree items = false) :
    bt_stream names (items ++ more) = bt_stream names items := by
  induction items generalizing names with
  | nil => simp [errorFree] at h
  | cons it rest ih =>
    cases it with
    | ioError e => simp [bt_stream]
    | event ev =>
      have h' : errorFree rest = false := by simpa [errorFree] using h
      simp [bt_stream, ih _ h']

theorem createsEntryFor_false_of_parse_none (hid : String)
    (h : Uuid.try_parse_ascii hid = none) (it : RawItem) :
    createsEntryFor hid it = false := by
  cases it with
  | ioError e => rfl
  | event ev =>
    cases ev with
    | deviceDiscovered id props =>
      cases props with
      | none => rfl
      | some p =>
        cases p with
        | none => rfl
        | some name =>
          simp [createsEntryFor]
          intro hbeq
          subst hbeq
          simp [h]
    | serviceDataAdvertisement id sd => rfl
    | manufacturerDataAdvertisement id md => rfl
    | other => rfl

theorem mapGet_btRunState_none (hid : String) (items : List RawItem)
    (names : List (String × DeviceId))
    (hfree : ∀ it ∈ items, createsEntryFor hid it = false)
    (h0 : mapGet hid names = none) :
    mapGet hid (btRunState names items) = none := by
  induction items generalizing names with
  | nil => exact h0
  | cons it rest ih =>
    have hrest : ∀ it ∈ rest, createsEntryFor hid it = false :=
      fun it' hit' => hfree it' (List.mem_cons_of_mem _ hit')
    cases it with
    | ioError e => exact h0
    | event ev =>
      cases ev with
      | deviceDiscovered id props =>
        cases props with
        | none => exact ih _ hrest h0
        | some p =>
          cases p with
          | none => exact ih _ hrest h0
          | some name =>
            have hthis := hfree _ (List.mem_cons_self _ _)
            cases hp : Uuid.try_parse_ascii id with
            | none => simpa [btRunState, btStep, hp] using ih _ hrest h0
            | some u =>
              have hne : hid ≠ id := by
                intro hc
                subst hc
                simp [createsEntryFor, hp] at hthis
              have hstep :
                  btRunState names
                    (RawItem.event
                      (CentralEvent.deviceDiscovered id (some (some name))) ::
                        rest) =
                  btRunState (mapInsert id ⟨u, name⟩ names) rest := by
                simp [btRunState, btStep, hp]
              rw [hstep]
              refine ih _ hrest ?_
              rw [mapGet_mapInsert_ne hid id _ names hne]
              exact h0
      | serviceDataAdvertisement id sd =>
        cases hg : mapGet id names <;>
          simpa [btRunState, btStep, hg] using ih _ hrest h0
      | manufacturerDataAdvertisement id md =>
        cases hg : mapGet id names <;>
          simpa [btRunState, btStep, hg] using ih _ hrest h0
      | other => exact ih _ hrest h0

theorem btRunState_stable_id (items : List RawItem)
    (names : List (String × DeviceId))
    (hinv : ∀ hid d, mapGet hid names = some d →
      Uuid.try_parse_ascii hid = some d.peripheral_id) :
    ∀ hid d, mapGet hid (btRunState names items) = some d →
      Uuid.try_parse_ascii hid = some d.peripheral_id := by
  induction items generalizing names with
  | nil => exact hinv
  | cons it rest ih =>
    cases it with
    | ioError e => exact hinv
    | event ev =>
      cases ev with
      | deviceDiscovered id props =>
        cases props with
        | none => exact ih _ hinv
        | some p =>
          cases p with
          | none => exact ih _ hinv
          | some name =>
            cases hp : Uuid.try_parse_ascii id with
            | none => simpa [btRunState, btStep, hp] using ih _ hinv
            | some u =>
              have hinv' : ∀ hid d,
                  mapGet hid (mapInsert id ⟨u, name⟩ names) = some d →
                  Uuid.try_parse_ascii hid = some d.peripheral_id := by
                intro hid d hget
                by_cases hk : hid = id
                · subst hk
                  rw [mapGet_mapInsert_self] at hget
                  cases hget
                  exact hp
                · rw [mapGet_mapInsert_ne hid id _ names hk] at hget
                  exact hinv _ _ hget
              simpa [btRunState, btStep, hp] using ih _ hinv'
      | serviceDataAdvertisement id sd =>
        cases hg : mapGet id names <;>
          simpa [btRunState, btStep, hg] using ih _ hinv
      | manufacturerDataAdvertisement id md =>
        cases hg : mapGet id names <;>
          simpa [btRunState, btStep, hg] using ih _ hinv
      | other => exact ih _ hinv

theorem measurements_single (e : Nat × List Nat) :
    measurements_from_manufacturer_data [e] = entryMeasurements e := by
  simp [measurements_from_manufacturer_data]

theorem mem_entryMeasurements (id : Nat) (data : List Nat)
    (parsed : SensorValues) (m : Measurement)
    (hp : SensorValues.from_manufacturer_specific_data id data = some parsed) :
    m ∈ entryMeasurements (id, data) ↔
      (∃ h, parsed.humidity_ppm = some h ∧
        m = Measurement.humidity ((h : ℚ) / 10000)) ∨
      (∃ t, parsed.temperature_millicelsius = some t ∧
        m = Measurement.temperature ((t : ℚ) / 1000)) ∨
      (∃ b, parsed.battery_potential_millivolts = some b ∧
        m = Measurement.voltage ((b : ℚ) / 1000)) := by
  obtain ⟨hh, tt, bb⟩ := parsed
  unfold entryMeasurements
  rw [hp]
  rcases hh with _ | h <;> rcases tt with _ | t <;> rcases bb with _ | b <;>
    simp [or_assoc] <;> try tauto

theorem entryMeasurements_shapes (e : Nat × List Nat) (m : Measurement)
    (hm : m ∈ entryMeasurements e) :
    (∃ v, m = Measurement.humidity v) ∨ (∃ v, m = Measurement.temperature v) ∨
      (∃ v, m = Measurement.voltage v) := by
  obtain ⟨id, data⟩ := e
  unfold entryMeasurements at hm
  rcases hp : SensorValues.from_manufacturer_specific_data id data with _ | parsed <;>
    rw [hp] at hm
  · simp at hm
  · obtain ⟨hh, tt, bb⟩ := parsed
    rcases hh with _ | h <;> rcases tt with _ | t <;> rcases bb with _ | b <;>
      simp at hm <;> aesop

theorem measurements_no_battery (md : List (Nat × List Nat)) (m : Measurement)
    (hm : m ∈ measurements_from_manufacturer_data md) :
    ∀ v, m ≠ Measurement.battery v := by
  rw [measurements_from_manufacturer_data, List.mem_flatMap] at hm
  obtain ⟨e, _, hme⟩ := hm
  rcases entryMeasurements_shapes e m hme with ⟨v, rfl⟩ | ⟨v, rfl⟩ | ⟨v, rfl⟩ <;>
    intro w <;> simp

theorem ruuvi_fixture_parse :
    SensorValues.from_manufacturer_specific_data 0x0499 ruuviFixture =
      some ⟨some 390000, some 19160, some 3300⟩ := by
  simp [SensorValues.from_manufacturer_specific_data, ruuviFixture, byte2BE]

theorem bthome_fixture_eval :
    measurements_from_service_data [(bthomeV2Uuid, bthomeFixture)] =
      [Measurement.battery 100, Measurement.temperature (19.16 : ℚ),
       Measurement.humidity 39] := by
  simp [measurements_from_service_data, Reading.decode, mapGet, bthomeV2Decode,
    bthomeElements, byte2BE, sint16, measurementOfElement, bthomeV2Uuid,
    uuid16, bthomeFixture]
  norm_num

/-- C1 (counterexample): on the documented BTHome service-data fixture
`[64, 0, 126, 1, 100, 2, 124, 7, 3, 60, 15]`, the structured decoder does
not yield the measurements in the order Humidity, Temperature, Battery
claimed by the spec: the envelope carries its elements in object-id order
(battery, temperature, humidity), and the decoder preserves element order. -/
theorem C1_fixture_order_counterexample :
    measurements_from_service_data [(bthomeV2Uuid, bthomeFixture)] ≠
      [Measurement.humidity 39, Measurement.temperature (19.16 : ℚ),
       Measurement.battery 100] := by
  rw [bthome_fixture_eval]
  simp

/-- C1 (amended): for the service-data payload consisting of the single
entry mapping the BTHome service UUID to
`[64, 0, 126, 1, 100, 2, 124, 7, 3, 60, 15]`, the structured decoder yields
exactly the measurements Battery(100.0), Temperature(19.16), Humidity(39.0) —
the same three measurements the claim lists, but in the payload's element
order — and no other measurements. -/
theorem C1_fixture_measurements :
    measurements_from_service_data [(bthomeV2Uuid, bthomeFixture)] =
      [Measurement.battery 100, Measurement.temperature (19.16 : ℚ),
       Measurement.humidity 39] :=
  bthome_fixture_eval

/-- C2: whenever the bytes for a vendor id parse successfully, the
fixed-layout decoder emits the raw humidity divided by 10000, the raw
millidegrees divided by 1000, and the raw millivolts divided by 1000 tagged
`Voltage`; every emitted measurement is one of those three conversions; no
manufacturer-data decode ever emits a `Battery` tag; and the raw triple
(390000, 19160, 3300) yields exactly Humidity 39.0, Temperature 19.16,
Voltage 3.3. -/
theorem C2_manufacturer_unit_conversions :
    (∀ (id : Nat) (data : List Nat) (parsed : SensorValues),
      SensorValues.from_manufacturer_specific_data id data = some parsed →
        (∀ h, parsed.humidity_ppm = some h →
          Measurement.humidity ((h : ℚ) / 10000) ∈
            measurements_from_manufacturer_data [(id, data)]) ∧
        (∀ t, parsed.temperature_millicelsius = some t →
          Measurement.temperature ((t : ℚ) / 1000) ∈
            measurements_from_manufacturer_data [(id, data)]) ∧
        (∀ b, parsed.battery_potential_millivolts = some b →
          Measurement.voltage ((b : ℚ) / 1000) ∈
            measurements_from_manufacturer_data [(id, data)]) ∧
        (∀ m ∈ measurements_from_manufacturer_data [(id, data)],
          (∃ h, parsed.humidity_ppm = some h ∧
            m = Measurement.humidity ((h : ℚ) / 10000)) ∨
          (∃ t, parsed.temperature_millicelsius = some t ∧
            m = Measurement.temperature ((t : ℚ) / 1000)) ∨
          (∃ b, parsed.battery_potential_millivolts = some b ∧
            m = Measurement.voltage ((b : ℚ) / 1000)))) ∧
    (∀ (md : List (Nat × List Nat)) (m : Measurement),
      m ∈ measurements_from_manufacturer_data md →
        ∀ v, m ≠ Measurement.battery v) ∧
    measurements_from_manufacturer_data [(0x0499, ruuviFixture)] =
      [Measurement.humidity (39.0 : ℚ), Measurement.temperature (19.16 : ℚ),
       Measurement.voltage (3.3 : ℚ)] := by
  refine ⟨?_, measurements_no_battery, ?_⟩
  · intro id data parsed hp
    refine ⟨?_, ?_, ?_, ?_⟩
    · intro h hh
      rw [measurements_single, mem_entryMeasurements id data parsed _ hp]
      exact Or.inl ⟨h, hh, rfl⟩
    · intro t ht
      rw [measurements_single, mem_entryMeasurements id data parsed _ hp]
      exact Or.inr (Or.inl ⟨t, ht, rfl⟩)
    · intro b hb
      rw [measurements_single, mem_entryMeasurements id data parsed _ hp]
      exact Or.inr (Or.inr ⟨b, hb, rfl⟩)
    · intro m hm
      rw [measurements_single, mem_entryMeasurements id data parsed _ hp] at hm
      exact hm
  · rw [measurements_single, entryMeasurements, ruuvi_fixture_parse]
    norm_num

/-- C2 witness: the concrete 24-byte vendor fixture parses to the raw triple
(390000, 19160, 3300), and the theorem instantiated there places each
converted measurement in the decoder output. -/
theorem C2_manufacturer_unit_conversions_witness :
    Measurement.humidity ((390000 : ℚ) / 10000) ∈
        measurements_from_manufacturer_data [(0x0499, ruuviFixture)] ∧
    Measurement.voltage ((3300 : ℚ) / 1000) ∈
        measurements_from_manufacturer_data [(0x0499, ruuviFixture)] :=
  ⟨(C2_manufacturer_unit_conversions.1 0x0499 ruuviFixture
      ⟨some 390000, some 19160, some 3300⟩ ruuvi_fixture_parse).1 390000 rfl,
   ((C2_manufacturer_unit_conversions.1 0x0499 ruuviFixture
      ⟨some 390000, some 19160, some 3300⟩ ruuvi_fixture_parse).2.2.1) 3300 rfl⟩

/-- C3: in a decoded structured envelope, an element named "humidity" maps
to Humidity of its float value (0 when absent), "temperature" to Temperature
of its float value (0 when absent), "battery" to Battery of its integer
value widened (0 when absent), any other name maps to nothing, and the
decoder output is exactly the element list filtered through this mapping. -/
theorem C3_element_name_mapping :
    (∀ e : Element, e.name = "humidity" →
      measurementOfElement e =
        some (Measurement.humidity (e.value_float.getD 0))) ∧
    (∀ e : Element, e.name = "temperature" →
      measurementOfElement e =
        some (Measurement.temperature (e.value_float.getD 0))) ∧
    (∀ e : Element, e.name = "battery" →
      measurementOfElement e =
        some (Measurement.battery ((e.value_int.getD 0 : Int) : ℚ))) ∧
    (∀ e : Element, e.name ≠ "humidity" → e.name ≠ "temperature" →
      e.name ≠ "battery" → measurementOfElement e = none) ∧
    (∀ (sd : List (Uuid × List Nat)) (v2 : BtHomeV2),
      Reading.decode sd = some (Reading.BtHomeV2 v2) →
      measurements_from_service_data sd =
        v2.elements.filterMap measurementOfElement) := by
  refine ⟨?_, ?_, ?_, ?_, ?_⟩
  · intro e h
    obtain ⟨n, vf, vi⟩ := e
    cases h
    rfl
  · intro e h
    obtain ⟨n, vf, vi⟩ := e
    cases h
    rfl
  · intro e h
    obtain ⟨n, vf, vi⟩ := e
    cases h
    rfl
  · intro e h1 h2 h3
    unfold measurementOfElement
    split <;> simp_all
  · intro sd v2 hd
    simp [measurements_from_service_data, hd]

/-- C3 witness: the mapping evaluated on concrete elements through the
theorem. -/
theorem C3_element_name_mapping_witness :
    measurementOfElement ⟨"temperature", some 21, none⟩ =
        some (Measurement.temperature 21) ∧
    measurementOfElement ⟨"pressure", some 1013, none⟩ = none :=
  ⟨C3_element_name_mapping.2.1 ⟨"temperature", some 21, none⟩ rfl,
   C3_element_name_mapping.2.2.2.1 ⟨"pressure", some 1013, none⟩
     (by decide) (by decide) (by decide)⟩

/-- C4: both decoders are deterministic functions of the payload's entry
set: two maps holding equal key/byte entries (permutations of each other,
with the distinct keys a hash map guarantees) decode to identical
measurement sequences, in both order and values. -/
theorem C4_decoder_determinism :
    (∀ sd₁ sd₂ : List (Uuid × List Nat), sd₁.Perm sd₂ → NodupKeys sd₁ →
      measurements_from_service_data sd₁ = measurements_from_service_data sd₂) ∧
    (∀ md₁ md₂ : List (Nat × List Nat), md₁.Perm md₂ → NodupKeys md₁ →
      measurements_from_manufacturer_data md₁ =
        measurements_from_manufacturer_data md₂) := by
  constructor
  · intro sd₁ sd₂ p nd
    have hd : Reading.decode sd₁ = Reading.decode sd₂ := by
      unfold Reading.decode
      rw [mapGet_perm bthomeV2Uuid p nd, mapGet_perm bthomeV1Uuid p nd,
        mapGet_perm atcUuid p nd]
    unfold measurements_from_service_data
    rw [hd]
  · intro md₁ md₂ p nd
    have nd₂ : NodupKeys md₂ := (p.map Prod.fst).nodup nd
    rw [measurements_eq_vendor_lookup md₁ nd,
      measurements_eq_vendor_lookup md₂ nd₂, mapGet_perm 0x0499 p nd]

/-- C4 witness: two concrete two-entry maps with the same entries in swapped
order decode identically, for both decoder families. -/
theorem C4_decoder_determinism_witness :
    measurements_from_manufacturer_data
        [(0xFFFF, [1]), (0x0499, ruuviFixture)] =
      measurements_from_manufacturer_data
        [(0x0499, ruuviFixture), (0xFFFF, [1])] ∧
    measurements_from_service_data
        [(atcUuid, [1]), (bthomeV2Uuid, bthomeFixture)] =
      measurements_from_service_data
        [(bthomeV2Uuid, bthomeFixture), (atcUuid, [1])] :=
  ⟨C4_decoder_determinism.2 _ _
      (List.Perm.swap (0x0499, ruuviFixture) (0xFFFF, [1]) [])
      (by unfold NodupKeys; decide),
   C4_decoder_determinism.1 _ _
      (List.Perm.swap (bthomeV2Uuid, bthomeFixture) (atcUuid, [1]) [])
      (by unfold NodupKeys; decide)⟩

/-- C5: an advertisement whose handle was never the subject of an
entry-creating discovery produces no output: the run with the advertisement
appended emits exactly what the run without it emits, for both advertisement
kinds. -/
theorem C5_unresolved_handle_dropped (items : List RawItem) (hid : String)
    (sd : List (Uuid × List Nat)) (md : List (Nat × List Nat))
    (h : ∀ it ∈ items, createsEntryFor hid it = false) :
    bt_stream [] (items ++
        [RawItem.event (CentralEvent.serviceDataAdvertisement hid sd)]) =
      bt_stream [] items ∧
    bt_stream [] (items ++
        [RawItem.event (CentralEvent.manufacturerDataAdvertisement hid md)]) =
      bt_stream [] items := by
  have hnone : mapGet hid (btRunState [] items) = none :=
    mapGet_btRunState_none hid items [] h rfl
  constructor <;>
  · cases herr : errorFree items with
    | false => rw [bt_stream_append_of_error _ _ _ herr]
    | true =>
      rw [bt_stream_append_of_errorFree _ _ _ herr]
      simp [bt_stream, btStep, hnone]

/-- C5 witness: after a single no-name discovery of a handle (which creates
no entry), a service-data advertisement for that handle is dropped. -/
theorem C5_unresolved_handle_dropped_witness :
    bt_stream []
        [RawItem.event (CentralEvent.deviceDiscovered sampleHandle (some none)),
         RawItem.event (CentralEvent.serviceDataAdvertisement sampleHandle
           [(bthomeV2Uuid, bthomeFixture)])] =
      bt_stream []
        [RawItem.event (CentralEvent.deviceDiscovered sampleHandle (some none))] :=
  (C5_unresolved_handle_dropped
    [RawItem.event (CentralEvent.deviceDiscovered sampleHandle (some none))]
    sampleHandle [(bthomeV2Uuid, bthomeFixture)] [] (by decide)).1

/-- C6: a discovery event carrying no name (no properties at all, or
properties without a local name) leaves the identity cache exactly
unchanged and emits nothing, for every prior cache state, both at the
single step and along any run. -/
theorem C6_unnamed_discovery_noop (names : List (String × DeviceId))
    (id : String) (props : Option (Option String)) (rest : List RawItem)
    (h : props = none ∨ props = some none) :
    btStep names (CentralEvent.deviceDiscovered id props) = (names, []) ∧
    btRunState names
        (RawItem.event (CentralEvent.deviceDiscovered id props) :: rest) =
      btRunState names rest ∧
    bt_stream names
        (RawItem.event (CentralEvent.deviceDiscovered id props) :: rest) =
      bt_stream names rest := by
  have hstep : btStep names (CentralEvent.deviceDiscovered id props) =
      (names, []) := by
    rcases h with rfl | rfl <;> rfl
  refine ⟨hstep, ?_, ?_⟩
  · show btRunState (btStep names (CentralEvent.deviceDiscovered id props)).1
        rest = btRunState names rest
    rw [hstep]
  · show (btStep names (CentralEvent.deviceDiscovered id props)).2.map
        Except.ok ++
        bt_stream (btStep names (CentralEvent.deviceDiscovered id props)).1
          rest = bt_stream names rest
    rw [hstep]
    simp

/-- C6 witness: the no-op step on a concrete no-name discovery. -/
theorem C6_unnamed_discovery_noop_witness :
    btStep [] (CentralEvent.deviceDiscovered sampleHandle (some none)) =
      ([], []) :=
  (C6_unnamed_discovery_noop [] sampleHandle (some none) [] (Or.inr rfl)).1

/-- C7 (counterexample): cached identities are not immutable: after the
handle is discovered with name "A" (creating the identity ⟨1, "A"⟩), a
second discovery of the same handle with name "B" overwrites the cached
identity to ⟨1, "B"⟩. -/
theorem C7_identity_overwrite_counterexample :
    mapGet sampleHandle (btRunState []
        [RawItem.event
          (CentralEvent.deviceDiscovered sampleHandle (some (some "A")))]) =
      some ⟨1, "A"⟩ ∧
    mapGet sampleHandle (btRunState []
        [RawItem.event
          (CentralEvent.deviceDiscovered sampleHandle (some (some "A"))),
         RawItem.event
          (CentralEvent.deviceDiscovered sampleHandle (some (some "B")))]) =
      some ⟨1, "B"⟩ := by
  constructor <;> rfl

/-- C7 (amended): the stable id of a cached identity never changes — it is
always exactly the UUID parsed from the handle — but the cached name is
last-write-wins: a later named discovery for the same handle overwrites the
entry, as the spec's own Identity-Cache contract states. -/
theorem C7_stable_id_immutable_name_last_write :
    (∀ (items : List RawItem) (hid : String) (d : DeviceId),
      mapGet hid (btRunState [] items) = some d →
        Uuid.try_parse_ascii hid = some d.peripheral_id) ∧
    (∀ (names : List (String × DeviceId)) (hid name : String) (u : Uuid),
      Uuid.try_parse_ascii hid = some u →
        (btStep names
          (CentralEvent.deviceDiscovered hid (some (some name)))).1 =
          mapInsert hid ⟨u, name⟩ names) := by
  constructor
  · intro items hid d
    exact btRunState_stable_id items []
      (fun hid' d' h => by simp [mapGet] at h) hid d
  · intro names hid name u hp
    simp [btStep, hp]

/-- C7 witness: the amended statement evaluated at the overwriting discovery
sequence: the overwritten entry still carries the parsed stable id, and the
overwriting step is exactly a last-write-wins insert. -/
theorem C7_stable_id_immutable_name_last_write_witness :
    Uuid.try_parse_ascii sampleHandle =
      some (DeviceId.mk 1 "B").peripheral_id ∧
    (btStep []
        (CentralEvent.deviceDiscovered sampleHandle (some (some "A")))).1 =
      mapInsert sampleHandle ⟨1, "A"⟩ [] :=
  ⟨C7_stable_id_immutable_name_last_write.1
      [RawItem.event
        (CentralEvent.deviceDiscovered sampleHandle (some (some "A"))),
       RawItem.event
        (CentralEvent.deviceDiscovered sampleHandle (some (some "B")))]
      sampleHandle ⟨1, "B"⟩ rfl,
   C7_stable_id_immutable_name_last_write.2 [] sampleHandle "A" 1 (by decide)⟩

/-- C8: a decode failure for one vendor id contributes nothing, and the
measurements for the other vendor ids are exactly those produced had the
failing entry been absent from the map. -/
theorem C8_vendor_decode_isolation (pre post : List (Nat × List Nat))
    (id : Nat) (data : List Nat)
    (hfail : SensorValues.from_manufacturer_specific_data id data = none) :
    measurements_from_manufacturer_data (pre ++ (id, data) :: post) =
      measurements_from_manufacturer_data (pre ++ post) := by
  have hentry : entryMeasurements (id, data) = [] := by
    unfold entryMeasurements
    rw [hfail]
  induction pre with
  | nil =>
    rw [List.nil_append, List.nil_append, measurements_flatMap_cons, hentry,
      List.nil_append]
  | cons e rest ih =>
    rw [List.cons_append, List.cons_append, measurements_flatMap_cons,
      measurements_flatMap_cons, ih]

/-- C8 witness: a truncated payload under an unrecognized vendor id does not
suppress the valid vendor entry next to it. -/
theorem C8_vendor_decode_isolation_witness :
    measurements_from_manufacturer_data
        [(0x0499, ruuviFixture), (0xFFFF, [1, 2, 3])] =
      measurements_from_manufacturer_data [(0x0499, ruuviFixture)] :=
  C8_vendor_decode_isolation [(0x0499, ruuviFixture)] [] 0xFFFF [1, 2, 3] rfl

/-- C9: a failing upstream operation is terminal: the output of the run with
any suffix after the error equals the output of the run ending at the error,
the projector produces no readings past it, and when no earlier error
occurred the error is surfaced as the last item of the output sequence. -/
theorem C9_transport_error_terminal (names : List (String × DeviceId))
    (pre post : List RawItem) (e : String) :
    bt_stream names (pre ++ RawItem.ioError e :: post) =
      bt_stream names (pre ++ [RawItem.ioError e]) ∧
    device_reading_stream
        (bt_stream names (pre ++ RawItem.ioError e :: post)) =
      device_reading_stream
        (bt_stream names (pre ++ [RawItem.ioError e])) ∧
    (errorFree pre = true →
      bt_stream names (pre ++ RawItem.ioError e :: post) =
        bt_stream names pre ++ [Except.error e]) := by
  have h1 : ∀ names' : List (String × DeviceId),
      bt_stream names' (pre ++ RawItem.ioError e :: post) =
        bt_stream names' (pre ++ [RawItem.ioError e]) := by
    induction pre with
    | nil => intro names'; rfl
    | cons it rest ih =>
      intro names'
      cases it with
      | ioError e' => rfl
      | event ev =>
        show (btStep names' ev).2.map Except.ok ++
            bt_stream (btStep names' ev).1 (rest ++ RawItem.ioError e :: post) =
          (btStep names' ev).2.map Except.ok ++
            bt_stream (btStep names' ev).1 (rest ++ [RawItem.ioError e])
        rw [ih]
  refine ⟨h1 names, by rw [h1 names], ?_⟩
  intro hfree
  rw [h1 names, bt_stream_append_of_errorFree names pre _ hfree]
  rfl

/-- C9 witness: the terminal-error shape on a concrete error-free prefix. -/
theorem C9_transport_error_terminal_witness :
    bt_stream []
        ([RawItem.event CentralEvent.other] ++ RawItem.ioError "adapter" ::
          [RawItem.event CentralEvent.other]) =
      bt_stream [] [RawItem.event CentralEvent.other] ++
        [Except.error "adapter"] :=
  (C9_transport_error_terminal [] [RawItem.event CentralEvent.other]
    [RawItem.event CentralEvent.other] "adapter").2.2 rfl

/-- C10: a discovery whose handle does not parse as a UUID creates no cache
entry even when it carries a name, the cache consequently never resolves
that handle on any run from startup, and every later advertisement for it
is dropped. -/
theorem C10_unparseable_handle_never_cached (hid : String)
    (hparse : Uuid.try_parse_ascii hid = none) :
    (∀ (names : List (String × DeviceId)) (name : String),
      btStep names (CentralEvent.deviceDiscovered hid (some (some name))) =
        (names, [])) ∧
    (∀ items, mapGet hid (btRunState [] items) = none) ∧
    (∀ items sd,
      bt_stream [] (items ++
          [RawItem.event (CentralEvent.serviceDataAdvertisement hid sd)]) =
        bt_stream [] items) ∧
    (∀ items md,
      bt_stream [] (items ++
          [RawItem.event
            (CentralEvent.manufacturerDataAdvertisement hid md)]) =
        bt_stream [] items) := by
  have hnone : ∀ items, mapGet hid (btRunState [] items) = none := fun items =>
    mapGet_btRunState_none hid items []
      (fun it _ => createsEntryFor_false_of_parse_none hid hparse it) rfl
  refine ⟨?_, hnone, ?_, ?_⟩
  · intro names name
    simp [btStep, hparse]
  · intro items sd
    cases herr : errorFree items with
    | false => rw [bt_stream_append_of_error _ _ _ herr]
    | true =>
      rw [bt_stream_append_of_errorFree _ _ _ herr]
      simp [bt_stream, btStep, hnone items]
  · intro items md
    cases herr : errorFree items with
    | false => rw [bt_stream_append_of_error _ _ _ herr]
    | true =>
      rw [bt_stream_append_of_errorFree _ _ _ herr]
      simp [bt_stream, btStep, hnone items]

/-- C10 witness: a named discovery of a colon-separated hardware-address
handle creates no entry, and an advertisement for that handle after the
discovery is dropped. -/
theorem C10_unparseable_handle_never_cached_witness :
    btStep [] (CentralEvent.deviceDiscovered macHandle (some (some "Sensor"))) =
      ([], []) ∧
    bt_stream []
        ([RawItem.event
            (CentralEvent.deviceDiscovered macHandle (some (some "Sensor")))] ++
          [RawItem.event (CentralEvent.serviceDataAdvertisement macHandle
            [(bthomeV2Uuid, bthomeFixture)])]) =
      bt_stream []
        [RawItem.event
          (CentralEvent.deviceDiscovered macHandle (some (some "Sensor")))] :=
  ⟨(C10_unparseable_handle_never_cached macHandle (by decide)).1 [] "Sensor",
   (C10_unparseable_handle_never_cached macHandle (by decide)).2.2.1
     [RawItem.event
       (CentralEvent.deviceDiscovered macHandle (some (some "Sensor")))]
     [(bthomeV2Uuid, bthomeFixture)]⟩

end Blueplug
